import Mathlib

/-!
The JNI boundary of libwg-go (tools/libwg-go/jni.c)

A shallow embedding of the six native methods of `GoBackend`.  Each method
talks to two collaborators that are not part of the file: the managed
runtime (through `JNIEnv`) and the Go tunnel engine (the `wg*` entry points
declared at the top of jni.c), plus `free` of libc.  Both are taken as a
parameter `Env W` that acts on an arbitrary world `W`, so every theorem
below holds for every behaviour of the runtime and of the engine.

A method returns its result, the world it leaves, and the ordered list of
calls it made (with the arguments it passed and the values it got back).

Integers: `jint`, `jsize` and `int` are 32 bits and `long` is at least as
wide.  jni.c does no arithmetic on them, and every conversion it performs
(`jint` to `int`, `jsize` to `long`, `int` to `jint`) preserves the value,
so they are modelled by `Int` without wrap-around.
-/

namespace WgJni

set_option linter.unusedVariables false

/-- A managed string reference (`jstring`); `none` is the null reference. -/
abbrev jstring := Option Nat

/-- A managed class reference (`jclass`); never inspected by jni.c. -/
abbrev jclass := Option Nat

/-- A native `char *` (also `const char *`); `none` is `NULL`. -/
abbrev char_ptr := Option Nat

/-- The `struct go_string { const char *str; long n; }` of jni.c, line 10. -/
structure go_string where
  str : char_ptr
  n : Int
deriving DecidableEq, Repr

/-- One call made by a native method: the callee, the arguments passed and
(for a callee that returns a value) the value returned. -/
inductive Event where
  | GetStringUTFChars (s : jstring) (ret : char_ptr)
  | ReleaseStringUTFChars (s : jstring) (utf : char_ptr)
  | GetStringUTFLength (s : jstring) (ret : Int)
  | NewStringUTF (bytes : char_ptr) (ret : jstring)
  | ExceptionCheck (ret : Bool)
  | free (p : char_ptr)
  | wgTurnOn (ifname : go_string) (tun_fd : Int) (settings : go_string) (ret : Int)
  | wgTurnOff (handle : Int)
  | wgGetSocketV4 (handle : Int) (ret : Int)
  | wgGetSocketV6 (handle : Int) (ret : Int)
  | wgGetConfig (handle : Int) (ret : char_ptr)
  | wgVersion (ret : char_ptr)
deriving DecidableEq, Repr

/-- The collaborators of jni.c, acting on a world `W`.  The first five
fields are the `JNIEnv` functions jni.c calls, `free` is libc, the last six
are the engine entry points declared on lines 11 to 16.  `ExceptionCheck`
is a query: it reports whether a managed exception is pending and changes
nothing. -/
structure Env (W : Type) where
  GetStringUTFChars : W → jstring → char_ptr × W
  ReleaseStringUTFChars : W → jstring → char_ptr → W
  GetStringUTFLength : W → jstring → Int × W
  NewStringUTF : W → char_ptr → jstring × W
  ExceptionCheck : W → Bool
  free : W → char_ptr → W
  wgTurnOn : W → go_string → Int → go_string → Int × W
  wgTurnOff : W → Int → W
  wgGetSocketV4 : W → Int → Int × W
  wgGetSocketV6 : W → Int → Int × W
  wgGetConfig : W → Int → char_ptr × W
  wgVersion : W → char_ptr × W

/-- What a native method leaves behind: the value returned to the managed
caller, the final world, and the calls made, in order. -/
structure Outcome (W : Type) (α : Type) where
  ret : α
  world : W
  trace : List Event

/-- jni.c lines 18 to 50. -/
def Java_com_wireguard_android_backend_GoBackend_wgTurnOn {W : Type} (env : Env W) (w : W)
    (c : jclass) (ifname : jstring) (tun_fd : Int) (settings : jstring) : Outcome W Int :=
  if ifname.isNone || settings.isNone then
    ⟨-1, w, []⟩
  else
    let a := env.GetStringUTFChars w ifname
    let ifname_str := a.1
    if ifname_str.isNone then
      ⟨-1, a.2, [Event.GetStringUTFChars ifname ifname_str]⟩
    else
      let b := env.GetStringUTFChars a.2 settings
      let settings_str := b.1
      if settings_str.isNone then
        let w3 := env.ReleaseStringUTFChars b.2 ifname ifname_str
        ⟨-1, w3,
          [Event.GetStringUTFChars ifname ifname_str,
           Event.GetStringUTFChars settings settings_str,
           Event.ReleaseStringUTFChars ifname ifname_str]⟩
      else
        let l1 := env.GetStringUTFLength b.2 ifname
        let ifname_len := l1.1
        let l2 := env.GetStringUTFLength l1.2 settings
        let settings_len := l2.1
        let r := env.wgTurnOn l2.2 ⟨ifname_str, ifname_len⟩ tun_fd ⟨settings_str, settings_len⟩
        let ret := r.1
        let w6 := env.ReleaseStringUTFChars r.2 ifname ifname_str
        let w7 := env.ReleaseStringUTFChars w6 settings settings_str
        ⟨ret, w7,
          [Event.GetStringUTFChars ifname ifname_str,
           Event.GetStringUTFChars settings settings_str,
           Event.GetStringUTFLength ifname ifname_len,
           Event.GetStringUTFLength settings settings_len,
           Event.wgTurnOn ⟨ifname_str, ifname_len⟩ tun_fd ⟨settings_str, settings_len⟩ ret,
           Event.ReleaseStringUTFChars ifname ifname_str,
           Event.ReleaseStringUTFChars settings settings_str]⟩

/-- jni.c lines 52 to 55. -/
def Java_com_wireguard_android_backend_GoBackend_wgTurnOff {W : Type} (env : Env W) (w : W)
    (c : jclass) (handle : Int) : Outcome W Unit :=
  ⟨(), env.wgTurnOff w handle, [Event.wgTurnOff handle]⟩

/-- jni.c lines 57 to 60. -/
def Java_com_wireguard_android_backend_GoBackend_wgGetSocketV4 {W : Type} (env : Env W) (w : W)
    (c : jclass) (handle : Int) : Outcome W Int :=
  let r := env.wgGetSocketV4 w handle
  ⟨r.1, r.2, [Event.wgGetSocketV4 handle r.1]⟩

/-- jni.c lines 62 to 65. -/
def Java_com_wireguard_android_backend_GoBackend_wgGetSocketV6 {W : Type} (env : Env W) (w : W)
    (c : jclass) (handle : Int) : Outcome W Int :=
  let r := env.wgGetSocketV6 w handle
  ⟨r.1, r.2, [Event.wgGetSocketV6 handle r.1]⟩

/-- jni.c lines 67 to 83. -/
def Java_com_wireguard_android_backend_GoBackend_wgGetConfig {W : Type} (env : Env W) (w : W)
    (c : jclass) (handle : Int) : Outcome W jstring :=
  let g := env.wgGetConfig w handle
  let config := g.1
  if config.isNone then
    ⟨none, g.2, [Event.wgGetConfig handle config]⟩
  else
    let s := env.NewStringUTF g.2 config
    let ret := s.1
    let w3 := env.free s.2 config
    if env.ExceptionCheck w3 then
      ⟨none, w3,
        [Event.wgGetConfig handle config, Event.NewStringUTF config ret, Event.free config,
         Event.ExceptionCheck true]⟩
    else
      ⟨ret, w3,
        [Event.wgGetConfig handle config, Event.NewStringUTF config ret, Event.free config,
         Event.ExceptionCheck false]⟩

/-- jni.c lines 85 to 101. -/
def Java_com_wireguard_android_backend_GoBackend_wgVersion {W : Type} (env : Env W) (w : W)
    (c : jclass) : Outcome W jstring :=
  let g := env.wgVersion w
  let version := g.1
  if version.isNone then
    ⟨none, g.2, [Event.wgVersion version]⟩
  else
    let s := env.NewStringUTF g.2 version
    let ret := s.1
    let w3 := env.free s.2 version
    if env.ExceptionCheck w3 then
      ⟨none, w3,
        [Event.wgVersion version, Event.NewStringUTF version ret, Event.free version,
         Event.ExceptionCheck true]⟩
    else
      ⟨ret, w3,
        [Event.wgVersion version, Event.NewStringUTF version ret, Event.free version,
         Event.ExceptionCheck false]⟩

/-! ## Vocabulary for talking about traces -/

/-- The event is an invocation of the engine entry point wgTurnOn. -/
def Event.isTurnOn : Event → Bool
  | Event.wgTurnOn _ _ _ _ => true
  | _ => false

/-- The event is an invocation of any engine entry point. -/
def Event.isEngineCall : Event → Bool
  | Event.wgTurnOn _ _ _ _ => true
  | Event.wgTurnOff _ => true
  | Event.wgGetSocketV4 _ _ => true
  | Event.wgGetSocketV6 _ _ => true
  | Event.wgGetConfig _ _ => true
  | Event.wgVersion _ => true
  | _ => false

/-- The event is a `free` of a native buffer. -/
def Event.isFree : Event → Bool
  | Event.free _ => true
  | _ => false

/-- The event is a conversion of a native buffer into a managed string. -/
def Event.isNewStringUTF : Event → Bool
  | Event.NewStringUTF _ _ => true
  | _ => false

/-- The event is a view acquisition (successful or not). -/
def Event.isGetChars : Event → Bool
  | Event.GetStringUTFChars _ _ => true
  | _ => false

/-- The event is a length query. -/
def Event.isGetLength : Event → Bool
  | Event.GetStringUTFLength _ _ => true
  | _ => false

/-- The event is the release of a borrowed view. -/
def Event.isReleaseChars : Event → Bool
  | Event.ReleaseStringUTFChars _ _ => true
  | _ => false

/-- The (string, view) pairs of the successful view acquisitions of a trace,
in order. -/
def acquired : List Event → List (jstring × char_ptr)
  | [] => []
  | Event.GetStringUTFChars s p :: rest =>
      if p.isSome then (s, p) :: acquired rest else acquired rest
  | _ :: rest => acquired rest

/-- The (string, view) pairs handed to ReleaseStringUTFChars in a trace, in
order. -/
def released : List Event → List (jstring × char_ptr)
  | [] => []
  | Event.ReleaseStringUTFChars s p :: rest => (s, p) :: released rest
  | _ :: rest => released rest

/-- The native memory an event reads: the engine reads the two views it is
given, the conversion reads the buffer it is given. -/
def Event.reads : Event → List char_ptr
  | Event.wgTurnOn ifname _ settings _ => [ifname.str, settings.str]
  | Event.NewStringUTF bytes _ => [bytes]
  | _ => []

/-- The native memory an event releases. -/
def Event.releases : Event → List char_ptr
  | Event.ReleaseStringUTFChars _ utf => [utf]
  | Event.free p => [p]
  | _ => []

/-- No event of the trace reads memory that an earlier event released. -/
def noReadAfterRelease : List Event → Bool
  | [] => true
  | e :: rest =>
      (e.releases.all fun p => rest.all fun e2 => !(e2.reads.contains p))
        && noReadAfterRelease rest

/-- Every event satisfying `p` comes strictly before every event satisfying
`q`: once a `q` event has occurred, no `p` event occurs at or after it. -/
def allBefore (p q : Event → Bool) : List Event → Bool
  | [] => true
  | e :: rest => (!(q e) || (!(p e) && rest.all fun e2 => !(p e2))) && allBefore p q rest

/-! ## A concrete runtime and engine, for evaluating the methods -/

/-- The world of the sample collaborators. -/
structure SimWorld where
  /-- a managed exception is pending -/
  pending : Bool
  /-- how many more runtime allocations succeed -/
  allocs : Nat
  /-- what the engine answers to wgTurnOn -/
  turnOnRet : Int
  /-- what the engine answers to wgGetConfig and wgVersion -/
  buffer : char_ptr
deriving DecidableEq, Repr

/-- A sample runtime and engine.  A runtime allocation that fails returns
null and leaves an OutOfMemoryError pending.  String 1 has 3 bytes (the
name wg0), string 2 has 16, every other string is empty. -/
def simEnv : Env SimWorld where
  GetStringUTFChars := fun w s =>
    if w.allocs = 0 then (none, ⟨true, 0, w.turnOnRet, w.buffer⟩)
    else (some (1000 + s.getD 0), ⟨w.pending, w.allocs - 1, w.turnOnRet, w.buffer⟩)
  ReleaseStringUTFChars := fun w _ _ => w
  GetStringUTFLength := fun w s =>
    (match s with
      | some 1 => 3
      | some 2 => 16
      | _ => 0, w)
  NewStringUTF := fun w _ =>
    if w.allocs = 0 then (none, ⟨true, 0, w.turnOnRet, w.buffer⟩)
    else (some 50, ⟨w.pending, w.allocs - 1, w.turnOnRet, w.buffer⟩)
  ExceptionCheck := fun w => w.pending
  free := fun w _ => w
  wgTurnOn := fun w _ _ _ => (w.turnOnRet, w)
  wgTurnOff := fun w _ => w
  wgGetSocketV4 := fun w _ => (7, w)
  wgGetSocketV6 := fun w _ => (8, w)
  wgGetConfig := fun w _ => (w.buffer, w)
  wgVersion := fun w => (w.buffer, w)

/-! ## The shape of every path through wgTurnOn -/

theorem wgTurnOn_path_null {W : Type} (env : Env W) (w : W) (c : jclass)
    (ifname : jstring) (tun_fd : Int) (settings : jstring)
    (h : ifname = none ∨ settings = none) :
    Java_com_wireguard_android_backend_GoBackend_wgTurnOn env w c ifname tun_fd settings
      = ⟨-1, w, []⟩ := by
  unfold Java_com_wireguard_android_backend_GoBackend_wgTurnOn
  rcases h with h | h <;> subst h <;> simp

theorem wgTurnOn_path_first_fails {W : Type} (env : Env W) (w : W) (c : jclass)
    (ifname : jstring) (tun_fd : Int) (settings : jstring) (w1 : W)
    (hi : ifname ≠ none) (hs : settings ≠ none)
    (h1 : env.GetStringUTFChars w ifname = (none, w1)) :
    Java_com_wireguard_android_backend_GoBackend_wgTurnOn env w c ifname tun_fd settings
      = ⟨-1, w1, [Event.GetStringUTFChars ifname none]⟩ := by
  unfold Java_com_wireguard_android_backend_GoBackend_wgTurnOn
  cases ifname with
  | none => exact absurd rfl hi
  | some i =>
    cases settings with
    | none => exact absurd rfl hs
    | some s => simp [h1]

theorem wgTurnOn_path_second_fails {W : Type} (env : Env W) (w : W) (c : jclass)
    (ifname : jstring) (tun_fd : Int) (settings : jstring) (p1 : char_ptr) (w1 w2 : W)
    (hi : ifname ≠ none) (hs : settings ≠ none)
    (h1 : env.GetStringUTFChars w ifname = (p1, w1)) (hp1 : p1 ≠ none)
    (h2 : env.GetStringUTFChars w1 settings = (none, w2)) :
    Java_com_wireguard_android_backend_GoBackend_wgTurnOn env w c ifname tun_fd settings
      = ⟨-1, env.ReleaseStringUTFChars w2 ifname p1,
          [Event.GetStringUTFChars ifname p1,
           Event.GetStringUTFChars settings none,
           Event.ReleaseStringUTFChars ifname p1]⟩ := by
  unfold Java_com_wireguard_android_backend_GoBackend_wgTurnOn
  cases ifname with
  | none => exact absurd rfl hi
  | some i =>
    cases settings with
    | none => exact absurd rfl hs
    | some s =>
      cases p1 with
      | none => exact absurd rfl hp1
      | some a => simp [h1, h2]

theorem wgTurnOn_path_engine {W : Type} (env : Env W) (w : W) (c : jclass)
    (ifname : jstring) (tun_fd : Int) (settings : jstring) (p1 p2 : char_ptr) (w1 w2 : W)
    (hi : ifname ≠ none) (hs : settings ≠ none)
    (h1 : env.GetStringUTFChars w ifname = (p1, w1)) (hp1 : p1 ≠ none)
    (h2 : env.GetStringUTFChars w1 settings = (p2, w2)) (hp2 : p2 ≠ none) :
    Java_com_wireguard_android_backend_GoBackend_wgTurnOn env w c ifname tun_fd settings
      = ⟨(env.wgTurnOn (env.GetStringUTFLength (env.GetStringUTFLength w2 ifname).2 settings).2
            ⟨p1, (env.GetStringUTFLength w2 ifname).1⟩ tun_fd
            ⟨p2, (env.GetStringUTFLength (env.GetStringUTFLength w2 ifname).2 settings).1⟩).1,
         env.ReleaseStringUTFChars
           (env.ReleaseStringUTFChars
             (env.wgTurnOn (env.GetStringUTFLength (env.GetStringUTFLength w2 ifname).2 settings).2
               ⟨p1, (env.GetStringUTFLength w2 ifname).1⟩ tun_fd
               ⟨p2, (env.GetStringUTFLength (env.GetStringUTFLength w2 ifname).2 settings).1⟩).2
             ifname p1)
           settings p2,
         [Event.GetStringUTFChars ifname p1,
          Event.GetStringUTFChars settings p2,
          Event.GetStringUTFLength ifname (env.GetStringUTFLength w2 ifname).1,
          Event.GetStringUTFLength settings
            (env.GetStringUTFLength (env.GetStringUTFLength w2 ifname).2 settings).1,
          Event.wgTurnOn ⟨p1, (env.GetStringUTFLength w2 ifname).1⟩ tun_fd
            ⟨p2, (env.GetStringUTFLength (env.GetStringUTFLength w2 ifname).2 settings).1⟩
            (env.wgTurnOn (env.GetStringUTFLength (env.GetStringUTFLength w2 ifname).2 settings).2
              ⟨p1, (env.GetStringUTFLength w2 ifname).1⟩ tun_fd
              ⟨p2, (env.GetStringUTFLength (env.GetStringUTFLength w2 ifname).2 settings).1⟩).1,
          Event.ReleaseStringUTFChars ifname p1,
          Event.ReleaseStringUTFChars settings p2]⟩ := by
  unfold Java_com_wireguard_android_backend_GoBackend_wgTurnOn
  cases ifname with
  | none => exact absurd rfl hi
  | some i =>
    cases settings with
    | none => exact absurd rfl hs
    | some s =>
      cases p1 with
      | none => exact absurd rfl hp1
      | some a =>
        cases p2 with
        | none => exact absurd rfl hp2
        | some b => simp [h1, h2]

/-- The same path, with every value the runtime and the engine hand back
named. -/
theorem wgTurnOn_path_engine_named {W : Type} (env : Env W) (w : W) (c : jclass)
    (ifname : jstring) (tun_fd : Int) (settings : jstring) (p1 p2 : char_ptr)
    (w1 w2 w3 w4 w5 : W) (n1 n2 r : Int)
    (hi : ifname ≠ none) (hs : settings ≠ none)
    (h1 : env.GetStringUTFChars w ifname = (p1, w1)) (hp1 : p1 ≠ none)
    (h2 : env.GetStringUTFChars w1 settings = (p2, w2)) (hp2 : p2 ≠ none)
    (h3 : env.GetStringUTFLength w2 ifname = (n1, w3))
    (h4 : env.GetStringUTFLength w3 settings = (n2, w4))
    (h5 : env.wgTurnOn w4 ⟨p1, n1⟩ tun_fd ⟨p2, n2⟩ = (r, w5)) :
    Java_com_wireguard_android_backend_GoBackend_wgTurnOn env w c ifname tun_fd settings
      = ⟨r, env.ReleaseStringUTFChars (env.ReleaseStringUTFChars w5 ifname p1) settings p2,
         [Event.GetStringUTFChars ifname p1,
          Event.GetStringUTFChars settings p2,
          Event.GetStringUTFLength ifname n1,
          Event.GetStringUTFLength settings n2,
          Event.wgTurnOn ⟨p1, n1⟩ tun_fd ⟨p2, n2⟩ r,
          Event.ReleaseStringUTFChars ifname p1,
          Event.ReleaseStringUTFChars settings p2]⟩ := by
  rw [wgTurnOn_path_engine env w c ifname tun_fd settings p1 p2 w1 w2 hi hs h1 hp1 h2 hp2]
  simp [h3, h4, h5]

/-! ## The two paths through wgGetConfig and wgVersion -/

theorem wgGetConfig_path_null {W : Type} (env : Env W) (w : W) (c : jclass) (handle : Int)
    (w1 : W) (h1 : env.wgGetConfig w handle = (none, w1)) :
    Java_com_wireguard_android_backend_GoBackend_wgGetConfig env w c handle
      = ⟨none, w1, [Event.wgGetConfig handle none]⟩ := by
  unfold Java_com_wireguard_android_backend_GoBackend_wgGetConfig
  simp [h1]

theorem wgGetConfig_path_buffer {W : Type} (env : Env W) (w : W) (c : jclass) (handle : Int)
    (config : char_ptr) (w1 w2 : W) (s : jstring)
    (h1 : env.wgGetConfig w handle = (config, w1)) (hb : config ≠ none)
    (h2 : env.NewStringUTF w1 config = (s, w2)) :
    Java_com_wireguard_android_backend_GoBackend_wgGetConfig env w c handle
      = ⟨if env.ExceptionCheck (env.free w2 config) = true then none else s,
         env.free w2 config,
         [Event.wgGetConfig handle config, Event.NewStringUTF config s, Event.free config,
          Event.ExceptionCheck (env.ExceptionCheck (env.free w2 config))]⟩ := by
  unfold Java_com_wireguard_android_backend_GoBackend_wgGetConfig
  cases config with
  | none => exact absurd rfl hb
  | some b =>
    cases hx : env.ExceptionCheck (env.free w2 (some b)) <;> simp [h1, h2, hx]

theorem wgVersion_path_null {W : Type} (env : Env W) (w : W) (c : jclass)
    (w1 : W) (h1 : env.wgVersion w = (none, w1)) :
    Java_com_wireguard_android_backend_GoBackend_wgVersion env w c
      = ⟨none, w1, [Event.wgVersion none]⟩ := by
  unfold Java_com_wireguard_android_backend_GoBackend_wgVersion
  simp [h1]

theorem wgVersion_path_buffer {W : Type} (env : Env W) (w : W) (c : jclass)
    (version : char_ptr) (w1 w2 : W) (s : jstring)
    (h1 : env.wgVersion w = (version, w1)) (hb : version ≠ none)
    (h2 : env.NewStringUTF w1 version = (s, w2)) :
    Java_com_wireguard_android_backend_GoBackend_wgVersion env w c
      = ⟨if env.ExceptionCheck (env.free w2 version) = true then none else s,
         env.free w2 version,
         [Event.wgVersion version, Event.NewStringUTF version s, Event.free version,
          Event.ExceptionCheck (env.ExceptionCheck (env.free w2 version))]⟩ := by
  unfold Java_com_wireguard_android_backend_GoBackend_wgVersion
  cases version with
  | none => exact absurd rfl hb
  | some b =>
    cases hx : env.ExceptionCheck (env.free w2 (some b)) <;> simp [h1, h2, hx]

/-! ## The claims -/

/-- C1. When the interface name or the settings text is the null reference,
wgTurnOn returns -1, leaves the world as it found it and makes no call at
all: the engine is not invoked and no view is acquired or released. -/
theorem wgTurnOn_null_argument {W : Type} (env : Env W) (w : W) (c : jclass)
    (ifname : jstring) (tun_fd : Int) (settings : jstring)
    (h : ifname = none ∨ settings = none) :
    (Java_com_wireguard_android_backend_GoBackend_wgTurnOn env w c ifname tun_fd settings).ret = -1
    ∧ (Java_com_wireguard_android_backend_GoBackend_wgTurnOn env w c ifname tun_fd settings).trace
        = []
    ∧ (Java_com_wireguard_android_backend_GoBackend_wgTurnOn env w c ifname tun_fd settings).world
        = w := by
  rw [wgTurnOn_path_null env w c ifname tun_fd settings h]
  exact ⟨rfl, rfl, rfl⟩

theorem wgTurnOn_null_argument_witness :
    ((none : jstring) = none ∨ (some 2 : jstring) = none)
    ∧ (Java_com_wireguard_android_backend_GoBackend_wgTurnOn simEnv
        ⟨false, 2, 3, none⟩ none none 5 (some 2)).ret = -1
    ∧ (Java_com_wireguard_android_backend_GoBackend_wgTurnOn simEnv
        ⟨false, 2, 3, none⟩ none none 5 (some 2)).trace = []
    ∧ (Java_com_wireguard_android_backend_GoBackend_wgTurnOn simEnv
        ⟨false, 2, 3, none⟩ none none 5 (some 2)).world = ⟨false, 2, 3, none⟩ :=
  ⟨Or.inl rfl,
   wgTurnOn_null_argument simEnv ⟨false, 2, 3, none⟩ none none 5 (some 2) (Or.inl rfl)⟩

/-- C2. With both text parameters non-null, when the first view acquisition
returns null, or the first succeeds and the second returns null, wgTurnOn
returns -1 and never invokes the engine.  In the first case the trace is
the failed acquisition alone (nothing is released); in the second case the
trace is the two acquisitions followed by the release of exactly the
interface-name view. -/
theorem wgTurnOn_acquisition_failure {W : Type} (env : Env W) (w : W) (c : jclass)
    (ifname : jstring) (tun_fd : Int) (settings : jstring) (p1 p2 : char_ptr) (w1 w2 : W)
    (hi : ifname ≠ none) (hs : settings ≠ none)
    (h1 : env.GetStringUTFChars w ifname = (p1, w1))
    (h2 : env.GetStringUTFChars w1 settings = (p2, w2))
    (hfail : p1 = none ∨ (p1 ≠ none ∧ p2 = none)) :
    (Java_com_wireguard_android_backend_GoBackend_wgTurnOn env w c ifname tun_fd settings).ret = -1
    ∧ (∀ e ∈ (Java_com_wireguard_android_backend_GoBackend_wgTurnOn env w c ifname tun_fd
          settings).trace, e.isTurnOn = false)
    ∧ (p1 = none →
        (Java_com_wireguard_android_backend_GoBackend_wgTurnOn env w c ifname tun_fd
          settings).trace = [Event.GetStringUTFChars ifname none]
        ∧ released (Java_com_wireguard_android_backend_GoBackend_wgTurnOn env w c ifname tun_fd
            settings).trace = []
        ∧ (Java_com_wireguard_android_backend_GoBackend_wgTurnOn env w c ifname tun_fd
            settings).world = w1)
    ∧ (p1 ≠ none →
        (Java_com_wireguard_android_backend_GoBackend_wgTurnOn env w c ifname tun_fd
          settings).trace
          = [Event.GetStringUTFChars ifname p1, Event.GetStringUTFChars settings none,
             Event.ReleaseStringUTFChars ifname p1]
        ∧ released (Java_com_wireguard_android_backend_GoBackend_wgTurnOn env w c ifname tun_fd
            settings).trace = [(ifname, p1)]
        ∧ (Java_com_wireguard_android_backend_GoBackend_wgTurnOn env w c ifname tun_fd
            settings).world = env.ReleaseStringUTFChars w2 ifname p1) := by
  rcases hfail with hp1 | ⟨hp1, hp2⟩
  · subst hp1
    rw [wgTurnOn_path_first_fails env w c ifname tun_fd settings w1 hi hs h1]
    simp [Event.isTurnOn, released]
  · subst hp2
    rw [wgTurnOn_path_second_fails env w c ifname tun_fd settings p1 w1 w2 hi hs h1 hp1 h2]
    simp [Event.isTurnOn, released, hp1]

theorem wgTurnOn_acquisition_failure_witness :
    (Java_com_wireguard_android_backend_GoBackend_wgTurnOn simEnv
        ⟨false, 1, 3, none⟩ none (some 1) 5 (some 2)).ret = -1
    ∧ (Java_com_wireguard_android_backend_GoBackend_wgTurnOn simEnv
        ⟨false, 1, 3, none⟩ none (some 1) 5 (some 2)).trace
        = [Event.GetStringUTFChars (some 1) (some 1001), Event.GetStringUTFChars (some 2) none,
           Event.ReleaseStringUTFChars (some 1) (some 1001)] :=
  have h := wgTurnOn_acquisition_failure simEnv ⟨false, 1, 3, none⟩ none (some 1) 5 (some 2)
    (some 1001) none ⟨false, 0, 3, none⟩ ⟨true, 0, 3, none⟩
    (by decide) (by decide) rfl rfl (Or.inr ⟨by decide, rfl⟩)
  ⟨h.1, (h.2.2.2 (by decide)).1⟩

/-- C3. With both text parameters non-null and both view acquisitions
succeeding, wgTurnOn invokes the engine exactly once and returns the
integer the engine returned, whatever its sign; the engine call is the only
call besides the two acquisitions, the two length queries and the two
releases. -/
theorem wgTurnOn_returns_engine_result {W : Type} (env : Env W) (w : W) (c : jclass)
    (ifname : jstring) (tun_fd : Int) (settings : jstring) (p1 p2 : char_ptr)
    (w1 w2 w3 w4 w5 : W) (n1 n2 r : Int)
    (hi : ifname ≠ none) (hs : settings ≠ none)
    (h1 : env.GetStringUTFChars w ifname = (p1, w1)) (hp1 : p1 ≠ none)
    (h2 : env.GetStringUTFChars w1 settings = (p2, w2)) (hp2 : p2 ≠ none)
    (h3 : env.GetStringUTFLength w2 ifname = (n1, w3))
    (h4 : env.GetStringUTFLength w3 settings = (n2, w4))
    (h5 : env.wgTurnOn w4 ⟨p1, n1⟩ tun_fd ⟨p2, n2⟩ = (r, w5)) :
    (Java_com_wireguard_android_backend_GoBackend_wgTurnOn env w c ifname tun_fd settings).ret = r
    ∧ (Java_com_wireguard_android_backend_GoBackend_wgTurnOn env w c ifname tun_fd
        settings).trace.filter Event.isEngineCall
        = [Event.wgTurnOn ⟨p1, n1⟩ tun_fd ⟨p2, n2⟩ r]
    ∧ (Java_com_wireguard_android_backend_GoBackend_wgTurnOn env w c ifname tun_fd
        settings).trace.countP Event.isTurnOn = 1
    ∧ (Java_com_wireguard_android_backend_GoBackend_wgTurnOn env w c ifname tun_fd
        settings).trace
        = [Event.GetStringUTFChars ifname p1, Event.GetStringUTFChars settings p2,
           Event.GetStringUTFLength ifname n1, Event.GetStringUTFLength settings n2,
           Event.wgTurnOn ⟨p1, n1⟩ tun_fd ⟨p2, n2⟩ r,
           Event.ReleaseStringUTFChars ifname p1, Event.ReleaseStringUTFChars settings p2] := by
  rw [wgTurnOn_path_engine_named env w c ifname tun_fd settings p1 p2 w1 w2 w3 w4 w5 n1 n2 r
    hi hs h1 hp1 h2 hp2 h3 h4 h5]
  simp [Event.isEngineCall, Event.isTurnOn]

theorem wgTurnOn_returns_engine_result_witness :
    (Java_com_wireguard_android_backend_GoBackend_wgTurnOn simEnv
        ⟨false, 2, 3, none⟩ none (some 1) 5 (some 2)).ret = 3
    ∧ (Java_com_wireguard_android_backend_GoBackend_wgTurnOn simEnv
        ⟨false, 2, 3, none⟩ none (some 1) 5 (some 2)).trace.countP Event.isTurnOn = 1 :=
  have h := wgTurnOn_returns_engine_result simEnv ⟨false, 2, 3, none⟩ none (some 1) 5 (some 2)
    (some 1001) (some 1002) ⟨false, 1, 3, none⟩ ⟨false, 0, 3, none⟩ ⟨false, 0, 3, none⟩
    ⟨false, 0, 3, none⟩ ⟨false, 0, 3, none⟩ 3 16 3
    (by decide) (by decide) rfl (by decide) rfl (by decide) rfl rfl rfl
  ⟨h.1, h.2.2.1⟩

/-- C4. Whenever wgTurnOn reaches the engine, the engine receives the view
acquired for the interface name paired with the result of the length query
on the interface name, the tun descriptor of the caller unchanged, and the
view acquired for the settings paired with the result of the length query
on the settings.  Conversely a non-null string whose acquisition succeeds
is never treated as absent, whatever its length: the engine is reached, for
an empty string with a view of length 0. -/
theorem wgTurnOn_engine_arguments {W : Type} (env : Env W) (w : W) (c : jclass)
    (ifname : jstring) (tun_fd : Int) (settings : jstring) (p1 p2 : char_ptr)
    (w1 w2 w3 w4 : W) (n1 n2 : Int)
    (h1 : env.GetStringUTFChars w ifname = (p1, w1))
    (h2 : env.GetStringUTFChars w1 settings = (p2, w2))
    (h3 : env.GetStringUTFLength w2 ifname = (n1, w3))
    (h4 : env.GetStringUTFLength w3 settings = (n2, w4)) :
    (∀ (g1 : go_string) (fd : Int) (g2 : go_string) (r : Int),
        Event.wgTurnOn g1 fd g2 r ∈
          (Java_com_wireguard_android_backend_GoBackend_wgTurnOn env w c ifname tun_fd
            settings).trace →
        g1 = ⟨p1, n1⟩ ∧ fd = tun_fd ∧ g2 = ⟨p2, n2⟩
        ∧ r = (env.wgTurnOn w4 ⟨p1, n1⟩ tun_fd ⟨p2, n2⟩).1
        ∧ ifname ≠ none ∧ settings ≠ none ∧ p1 ≠ none ∧ p2 ≠ none)
    ∧ (ifname ≠ none → settings ≠ none → p1 ≠ none → p2 ≠ none →
        Event.wgTurnOn ⟨p1, n1⟩ tun_fd ⟨p2, n2⟩
            (env.wgTurnOn w4 ⟨p1, n1⟩ tun_fd ⟨p2, n2⟩).1 ∈
          (Java_com_wireguard_android_backend_GoBackend_wgTurnOn env w c ifname tun_fd
            settings).trace) := by
  by_cases hn : ifname = none ∨ settings = none
  · rw [wgTurnOn_path_null env w c ifname tun_fd settings hn]
    refine ⟨by simp, ?_⟩
    intro hi hs
    rcases hn with hn | hn
    · exact absurd hn hi
    · exact absurd hn hs
  · have hi : ifname ≠ none := fun h => hn (Or.inl h)
    have hs : settings ≠ none := fun h => hn (Or.inr h)
    by_cases hp1 : p1 = none
    · subst hp1
      rw [wgTurnOn_path_first_fails env w c ifname tun_fd settings w1 hi hs h1]
      simp
    · by_cases hp2 : p2 = none
      · subst hp2
        rw [wgTurnOn_path_second_fails env w c ifname tun_fd settings p1 w1 w2 hi hs h1 hp1 h2]
        simp
      · rw [wgTurnOn_path_engine_named env w c ifname tun_fd settings p1 p2 w1 w2 w3 w4
          (env.wgTurnOn w4 ⟨p1, n1⟩ tun_fd ⟨p2, n2⟩).2 n1 n2
          (env.wgTurnOn w4 ⟨p1, n1⟩ tun_fd ⟨p2, n2⟩).1 hi hs h1 hp1 h2 hp2 h3 h4 rfl]
        refine ⟨?_, fun _ _ _ _ => by simp⟩
        intro g1 fd g2 r hmem
        simp at hmem
        obtain ⟨e1, e2, e3, e4⟩ := hmem
        subst e1 e2 e3
        exact ⟨rfl, rfl, rfl, e4, hi, hs, hp1, hp2⟩

theorem wgTurnOn_engine_arguments_witness :
    Event.wgTurnOn ⟨some 1001, 3⟩ 5 ⟨some 1003, 0⟩ 3 ∈
      (Java_com_wireguard_android_backend_GoBackend_wgTurnOn simEnv
        ⟨false, 2, 3, none⟩ none (some 1) 5 (some 3)).trace :=
  (wgTurnOn_engine_arguments simEnv ⟨false, 2, 3, none⟩ none (some 1) 5 (some 3)
    (some 1001) (some 1003) ⟨false, 1, 3, none⟩ ⟨false, 0, 3, none⟩ ⟨false, 0, 3, none⟩
    ⟨false, 0, 3, none⟩ 3 0 rfl rfl rfl rfl).2 (by decide) (by decide) (by decide) (by decide)

/-- C5. On every exit path of wgTurnOn the borrowed views balance.  The
releases are exactly the successful acquisitions, pair for pair (same
string, same view).  At most one view is acquired per text parameter: the
successful acquisitions are none, or the interface-name view alone, or the
interface-name view followed by the settings view.  Whenever the engine is
invoked, exactly one view per text parameter was acquired and exactly that
one is released, whatever the engine returns. -/
theorem wgTurnOn_views_balance {W : Type} (env : Env W) (w : W) (c : jclass)
    (ifname : jstring) (tun_fd : Int) (settings : jstring) (p1 p2 : char_ptr) (w1 w2 : W)
    (h1 : env.GetStringUTFChars w ifname = (p1, w1))
    (h2 : env.GetStringUTFChars w1 settings = (p2, w2)) :
    released (Java_com_wireguard_android_backend_GoBackend_wgTurnOn env w c ifname tun_fd
        settings).trace
      = acquired (Java_com_wireguard_android_backend_GoBackend_wgTurnOn env w c ifname tun_fd
        settings).trace
    ∧ (acquired (Java_com_wireguard_android_backend_GoBackend_wgTurnOn env w c ifname tun_fd
          settings).trace = []
       ∨ acquired (Java_com_wireguard_android_backend_GoBackend_wgTurnOn env w c ifname tun_fd
          settings).trace = [(ifname, p1)]
       ∨ acquired (Java_com_wireguard_android_backend_GoBackend_wgTurnOn env w c ifname tun_fd
          settings).trace = [(ifname, p1), (settings, p2)])
    ∧ ((∃ e ∈ (Java_com_wireguard_android_backend_GoBackend_wgTurnOn env w c ifname tun_fd
          settings).trace, e.isTurnOn = true) →
        acquired (Java_com_wireguard_android_backend_GoBackend_wgTurnOn env w c ifname tun_fd
          settings).trace = [(ifname, p1), (settings, p2)]
        ∧ released (Java_com_wireguard_android_backend_GoBackend_wgTurnOn env w c ifname tun_fd
          settings).trace = [(ifname, p1), (settings, p2)]
        ∧ (Java_com_wireguard_android_backend_GoBackend_wgTurnOn env w c ifname tun_fd
          settings).trace.countP Event.isGetChars = 2
        ∧ (Java_com_wireguard_android_backend_GoBackend_wgTurnOn env w c ifname tun_fd
          settings).trace.countP Event.isReleaseChars = 2) := by
  by_cases hn : ifname = none ∨ settings = none
  · rw [wgTurnOn_path_null env w c ifname tun_fd settings hn]
    simp [acquired, released]
  · have hi : ifname ≠ none := fun h => hn (Or.inl h)
    have hs : settings ≠ none := fun h => hn (Or.inr h)
    by_cases hp1 : p1 = none
    · subst hp1
      rw [wgTurnOn_path_first_fails env w c ifname tun_fd settings w1 hi hs h1]
      simp [acquired, released, Event.isTurnOn]
    · obtain ⟨a, rfl⟩ := Option.ne_none_iff_exists'.mp hp1
      by_cases hp2 : p2 = none
      · subst hp2
        rw [wgTurnOn_path_second_fails env w c ifname tun_fd settings (some a) w1 w2 hi hs h1
          hp1 h2]
        simp [acquired, released, Event.isTurnOn]
      · obtain ⟨b, rfl⟩ := Option.ne_none_iff_exists'.mp hp2
        rw [wgTurnOn_path_engine env w c ifname tun_fd settings (some a) (some b) w1 w2 hi hs h1
          hp1 h2 hp2]
        simp [acquired, released, Event.isGetChars, Event.isReleaseChars]

theorem wgTurnOn_views_balance_witness :
    released (Java_com_wireguard_android_backend_GoBackend_wgTurnOn simEnv
        ⟨false, 2, -22, none⟩ none (some 1) 5 (some 2)).trace
      = acquired (Java_com_wireguard_android_backend_GoBackend_wgTurnOn simEnv
        ⟨false, 2, -22, none⟩ none (some 1) 5 (some 2)).trace :=
  (wgTurnOn_views_balance simEnv ⟨false, 2, -22, none⟩ none (some 1) 5 (some 2)
    (some 1001) (some 1002) ⟨false, 1, -22, none⟩ ⟨false, 0, -22, none⟩ rfl rfl).1

/-- C6. When the engine returns no buffer (null), wgGetConfig (for every
handle) and wgVersion return the absent value (null) and make no other
call: no conversion to a managed string and no free, so the release count
of the call is zero. -/
theorem wgGetConfig_wgVersion_no_buffer {W : Type} (env : Env W) (w : W) (c : jclass)
    (handle : Int) :
    ((env.wgGetConfig w handle).1 = none →
        (Java_com_wireguard_android_backend_GoBackend_wgGetConfig env w c handle).ret = none
        ∧ (Java_com_wireguard_android_backend_GoBackend_wgGetConfig env w c handle).trace
            = [Event.wgGetConfig handle none]
        ∧ (Java_com_wireguard_android_backend_GoBackend_wgGetConfig env w c handle).trace.countP
            Event.isFree = 0
        ∧ (Java_com_wireguard_android_backend_GoBackend_wgGetConfig env w c handle).trace.countP
            Event.isNewStringUTF = 0
        ∧ (Java_com_wireguard_android_backend_GoBackend_wgGetConfig env w c handle).world
            = (env.wgGetConfig w handle).2)
    ∧ ((env.wgVersion w).1 = none →
        (Java_com_wireguard_android_backend_GoBackend_wgVersion env w c).ret = none
        ∧ (Java_com_wireguard_android_backend_GoBackend_wgVersion env w c).trace
            = [Event.wgVersion none]
        ∧ (Java_com_wireguard_android_backend_GoBackend_wgVersion env w c).trace.countP
            Event.isFree = 0
        ∧ (Java_com_wireguard_android_backend_GoBackend_wgVersion env w c).trace.countP
            Event.isNewStringUTF = 0
        ∧ (Java_com_wireguard_android_backend_GoBackend_wgVersion env w c).world
            = (env.wgVersion w).2) := by
  constructor
  · intro h
    rw [wgGetConfig_path_null env w c handle (env.wgGetConfig w handle).2 (Prod.ext h rfl)]
    simp [Event.isFree, Event.isNewStringUTF]
  · intro h
    rw [wgVersion_path_null env w c (env.wgVersion w).2 (Prod.ext h rfl)]
    simp [Event.isFree, Event.isNewStringUTF]

theorem wgGetConfig_wgVersion_no_buffer_witness :
    (Java_com_wireguard_android_backend_GoBackend_wgGetConfig simEnv
        ⟨false, 2, 3, none⟩ none 3).ret = none
    ∧ (Java_com_wireguard_android_backend_GoBackend_wgVersion simEnv
        ⟨false, 2, 3, none⟩ none).trace = [Event.wgVersion none] :=
  have h := wgGetConfig_wgVersion_no_buffer simEnv ⟨false, 2, 3, none⟩ none 3
  ⟨(h.1 rfl).1, (h.2 rfl).2.1⟩

/-- C7. When the engine returns a buffer, wgGetConfig and wgVersion convert
it with NewStringUTF and then free that buffer exactly once, whether or not
the conversion succeeded.  If an exception is pending when the method
checks (after the conversion and the free) the result is the absent value;
otherwise the result is exactly the managed string NewStringUTF produced
from that buffer.  Whenever the free leaves the pending status as the
conversion left it (libc does not touch the runtime), this is the status
right after NewStringUTF. -/
theorem wgGetConfig_wgVersion_buffer_freed_once {W : Type} (env : Env W) (w : W) (c : jclass)
    (handle : Int) :
    (∀ (config : char_ptr) (w1 w2 : W) (s : jstring),
        env.wgGetConfig w handle = (config, w1) → config ≠ none →
        env.NewStringUTF w1 config = (s, w2) →
        (Java_com_wireguard_android_backend_GoBackend_wgGetConfig env w c handle).trace
            = [Event.wgGetConfig handle config, Event.NewStringUTF config s, Event.free config,
               Event.ExceptionCheck (env.ExceptionCheck (env.free w2 config))]
        ∧ (Java_com_wireguard_android_backend_GoBackend_wgGetConfig env w c handle).trace.filter
            Event.isFree = [Event.free config]
        ∧ (env.ExceptionCheck (env.free w2 config) = true →
            (Java_com_wireguard_android_backend_GoBackend_wgGetConfig env w c handle).ret = none)
        ∧ (env.ExceptionCheck (env.free w2 config) = false →
            (Java_com_wireguard_android_backend_GoBackend_wgGetConfig env w c handle).ret = s)
        ∧ (env.ExceptionCheck (env.free w2 config) = env.ExceptionCheck w2 →
            (Java_com_wireguard_android_backend_GoBackend_wgGetConfig env w c handle).ret
              = if env.ExceptionCheck w2 = true then none else s))
    ∧ (∀ (version : char_ptr) (w1 w2 : W) (s : jstring),
        env.wgVersion w = (version, w1) → version ≠ none →
        env.NewStringUTF w1 version = (s, w2) →
        (Java_com_wireguard_android_backend_GoBackend_wgVersion env w c).trace
            = [Event.wgVersion version, Event.NewStringUTF version s, Event.free version,
               Event.ExceptionCheck (env.ExceptionCheck (env.free w2 version))]
        ∧ (Java_com_wireguard_android_backend_GoBackend_wgVersion env w c).trace.filter
            Event.isFree = [Event.free version]
        ∧ (env.ExceptionCheck (env.free w2 version) = true →
            (Java_com_wireguard_android_backend_GoBackend_wgVersion env w c).ret = none)
        ∧ (env.ExceptionCheck (env.free w2 version) = false →
            (Java_com_wireguard_android_backend_GoBackend_wgVersion env w c).ret = s)
        ∧ (env.ExceptionCheck (env.free w2 version) = env.ExceptionCheck w2 →
            (Java_com_wireguard_android_backend_GoBackend_wgVersion env w c).ret
              = if env.ExceptionCheck w2 = true then none else s)) := by
  constructor
  · intro config w1 w2 s h1 hb h2
    rw [wgGetConfig_path_buffer env w c handle config w1 w2 s h1 hb h2]
    refine ⟨rfl, by simp [Event.isFree], ?_, ?_, ?_⟩ <;> intro hx <;> simp [hx]
  · intro version w1 w2 s h1 hb h2
    rw [wgVersion_path_buffer env w c version w1 w2 s h1 hb h2]
    refine ⟨rfl, by simp [Event.isFree], ?_, ?_, ?_⟩ <;> intro hx <;> simp [hx]

theorem wgGetConfig_wgVersion_buffer_freed_once_witness :
    (Java_com_wireguard_android_backend_GoBackend_wgGetConfig simEnv
        ⟨false, 1, 3, some 700⟩ none 3).ret = some 50
    ∧ (Java_com_wireguard_android_backend_GoBackend_wgGetConfig simEnv
        ⟨false, 1, 3, some 700⟩ none 3).trace.filter Event.isFree = [Event.free (some 700)]
    ∧ (Java_com_wireguard_android_backend_GoBackend_wgVersion simEnv
        ⟨false, 0, 3, some 700⟩ none).ret = none
    ∧ (Java_com_wireguard_android_backend_GoBackend_wgVersion simEnv
        ⟨false, 0, 3, some 700⟩ none).trace.filter Event.isFree = [Event.free (some 700)] :=
  have hc := (wgGetConfig_wgVersion_buffer_freed_once simEnv ⟨false, 1, 3, some 700⟩ none 3).1
    (some 700) ⟨false, 1, 3, some 700⟩ ⟨false, 0, 3, some 700⟩ (some 50) rfl (by decide) rfl
  have hv := (wgGetConfig_wgVersion_buffer_freed_once simEnv ⟨false, 0, 3, some 700⟩ none 3).2
    (some 700) ⟨false, 0, 3, some 700⟩ ⟨true, 0, 3, some 700⟩ none rfl (by decide) rfl
  ⟨hc.2.2.2.1 rfl, hc.2.1, hv.2.2.1 rfl, hv.2.1⟩

/-- C9. The handle-only methods are pass-throughs.  For every integer
handle, wgGetSocketV4 makes exactly one call, the IPv4 socket query of the
engine on that handle, and returns its result unchanged; wgGetSocketV6 does
the same with the IPv6 socket query; wgTurnOff makes exactly one call, the
wgTurnOff of the engine on that handle, and returns nothing.  None of them
makes any other call, so nothing is acquired or released. -/
theorem handle_methods_pass_through {W : Type} (env : Env W) (w : W) (c : jclass)
    (handle : Int) :
    ((Java_com_wireguard_android_backend_GoBackend_wgGetSocketV4 env w c handle).ret
        = (env.wgGetSocketV4 w handle).1
      ∧ (Java_com_wireguard_android_backend_GoBackend_wgGetSocketV4 env w c handle).trace
        = [Event.wgGetSocketV4 handle (env.wgGetSocketV4 w handle).1]
      ∧ (Java_com_wireguard_android_backend_GoBackend_wgGetSocketV4 env w c handle).world
        = (env.wgGetSocketV4 w handle).2)
    ∧ ((Java_com_wireguard_android_backend_GoBackend_wgGetSocketV6 env w c handle).ret
        = (env.wgGetSocketV6 w handle).1
      ∧ (Java_com_wireguard_android_backend_GoBackend_wgGetSocketV6 env w c handle).trace
        = [Event.wgGetSocketV6 handle (env.wgGetSocketV6 w handle).1]
      ∧ (Java_com_wireguard_android_backend_GoBackend_wgGetSocketV6 env w c handle).world
        = (env.wgGetSocketV6 w handle).2)
    ∧ ((Java_com_wireguard_android_backend_GoBackend_wgTurnOff env w c handle).ret = ()
      ∧ (Java_com_wireguard_android_backend_GoBackend_wgTurnOff env w c handle).trace
        = [Event.wgTurnOff handle]
      ∧ (Java_com_wireguard_android_backend_GoBackend_wgTurnOff env w c handle).world
        = env.wgTurnOff w handle) := by
  refine ⟨⟨rfl, rfl, rfl⟩, ⟨rfl, rfl, rfl⟩, ⟨rfl, rfl, rfl⟩⟩

/-- C8, as claimed, fails.  The sample runtime has no exception pending
when wgGetConfig and wgVersion are entered; the engine hands back buffer
700 and the conversion faults.  Both methods return the absent value, and
the exception raised by the conversion is still pending for the caller. -/
theorem exception_left_pending_counterexample :
    simEnv.ExceptionCheck ⟨false, 0, 3, some 700⟩ = false
    ∧ (Java_com_wireguard_android_backend_GoBackend_wgGetConfig simEnv
        ⟨false, 0, 3, some 700⟩ none 3).ret = none
    ∧ simEnv.ExceptionCheck
        (Java_com_wireguard_android_backend_GoBackend_wgGetConfig simEnv
          ⟨false, 0, 3, some 700⟩ none 3).world = true
    ∧ (Java_com_wireguard_android_backend_GoBackend_wgVersion simEnv
        ⟨false, 0, 3, some 700⟩ none).ret = none
    ∧ simEnv.ExceptionCheck
        (Java_com_wireguard_android_backend_GoBackend_wgVersion simEnv
          ⟨false, 0, 3, some 700⟩ none).world = true := by
  refine ⟨rfl, rfl, rfl, rfl, rfl⟩

/-- C8, amended.  A failure reaches the caller as the uniform return value
of the method, and the method does no exception handling of its own.  In
wgGetConfig and wgVersion, once the engine has returned a buffer, the
method returns in the very state its exception check observed, so an
exception is pending for the caller exactly when the check reported one,
and in that case the result is the absent value.  In wgTurnOn, when a view
acquisition returns null the result is -1 and the method returns in the
state the runtime left after the failed acquisition (first acquisition) or
after the release of the interface-name view (second acquisition). -/
theorem failure_signal_keeps_exception {W : Type} (env : Env W) (w : W) (c : jclass)
    (handle : Int) (ifname : jstring) (tun_fd : Int) (settings : jstring) :
    (∀ (config : char_ptr) (w1 w2 : W) (s : jstring),
        env.wgGetConfig w handle = (config, w1) → config ≠ none →
        env.NewStringUTF w1 config = (s, w2) →
        (Java_com_wireguard_android_backend_GoBackend_wgGetConfig env w c handle).world
            = env.free w2 config
        ∧ env.ExceptionCheck
            (Java_com_wireguard_android_backend_GoBackend_wgGetConfig env w c handle).world
            = env.ExceptionCheck (env.free w2 config)
        ∧ (env.ExceptionCheck (env.free w2 config) = true →
            (Java_com_wireguard_android_backend_GoBackend_wgGetConfig env w c handle).ret = none
            ∧ env.ExceptionCheck
                (Java_com_wireguard_android_backend_GoBackend_wgGetConfig env w c handle).world
                = true))
    ∧ (∀ (version : char_ptr) (w1 w2 : W) (s : jstring),
        env.wgVersion w = (version, w1) → version ≠ none →
        env.NewStringUTF w1 version = (s, w2) →
        (Java_com_wireguard_android_backend_GoBackend_wgVersion env w c).world
            = env.free w2 version
        ∧ env.ExceptionCheck
            (Java_com_wireguard_android_backend_GoBackend_wgVersion env w c).world
            = env.ExceptionCheck (env.free w2 version)
        ∧ (env.ExceptionCheck (env.free w2 version) = true →
            (Java_com_wireguard_android_backend_GoBackend_wgVersion env w c).ret = none
            ∧ env.ExceptionCheck
                (Java_com_wireguard_android_backend_GoBackend_wgVersion env w c).world = true))
    ∧ (∀ (w1 : W), ifname ≠ none → settings ≠ none →
        env.GetStringUTFChars w ifname = (none, w1) →
        (Java_com_wireguard_android_backend_GoBackend_wgTurnOn env w c ifname tun_fd
            settings).ret = -1
        ∧ (Java_com_wireguard_android_backend_GoBackend_wgTurnOn env w c ifname tun_fd
            settings).world = w1)
    ∧ (∀ (p1 : char_ptr) (w1 w2 : W), ifname ≠ none → settings ≠ none →
        env.GetStringUTFChars w ifname = (p1, w1) → p1 ≠ none →
        env.GetStringUTFChars w1 settings = (none, w2) →
        (Java_com_wireguard_android_backend_GoBackend_wgTurnOn env w c ifname tun_fd
            settings).ret = -1
        ∧ (Java_com_wireguard_android_backend_GoBackend_wgTurnOn env w c ifname tun_fd
            settings).world = env.ReleaseStringUTFChars w2 ifname p1) := by
  refine ⟨?_, ?_, ?_, ?_⟩
  · intro config w1 w2 s h1 hb h2
    rw [wgGetConfig_path_buffer env w c handle config w1 w2 s h1 hb h2]
    refine ⟨rfl, rfl, ?_⟩
    intro hx
    simp [hx]
  · intro version w1 w2 s h1 hb h2
    rw [wgVersion_path_buffer env w c version w1 w2 s h1 hb h2]
    refine ⟨rfl, rfl, ?_⟩
    intro hx
    simp [hx]
  · intro w1 hi hs h1
    rw [wgTurnOn_path_first_fails env w c ifname tun_fd settings w1 hi hs h1]
    exact ⟨rfl, rfl⟩
  · intro p1 w1 w2 hi hs h1 hp1 h2
    rw [wgTurnOn_path_second_fails env w c ifname tun_fd settings p1 w1 w2 hi hs h1 hp1 h2]
    exact ⟨rfl, rfl⟩

theorem failure_signal_keeps_exception_witness :
    ((Java_com_wireguard_android_backend_GoBackend_wgGetConfig simEnv
        ⟨false, 0, 3, some 700⟩ none 3).ret = none
      ∧ simEnv.ExceptionCheck
          (Java_com_wireguard_android_backend_GoBackend_wgGetConfig simEnv
            ⟨false, 0, 3, some 700⟩ none 3).world = true)
    ∧ ((Java_com_wireguard_android_backend_GoBackend_wgTurnOn simEnv
        ⟨false, 0, 3, some 700⟩ none (some 1) 5 (some 2)).ret = -1
      ∧ (Java_com_wireguard_android_backend_GoBackend_wgTurnOn simEnv
        ⟨false, 0, 3, some 700⟩ none (some 1) 5 (some 2)).world = ⟨true, 0, 3, some 700⟩) :=
  have h := failure_signal_keeps_exception simEnv ⟨false, 0, 3, some 700⟩ none 3 (some 1) 5
    (some 2)
  ⟨(h.1 (some 700) ⟨false, 0, 3, some 700⟩ ⟨true, 0, 3, some 700⟩ none rfl (by decide)
      rfl).2.2 rfl,
   h.2.2.1 ⟨true, 0, 3, some 700⟩ (by decide) (by decide) rfl⟩

/-- C10. No native memory is read after its release.  In every trace of
wgTurnOn, wgGetConfig and wgVersion no event reads memory that an earlier
event released.  In wgTurnOn every view acquisition and every length query
comes strictly before the engine invocation, which comes strictly before
every release; when the engine is invoked the trace is exactly: both
acquisitions (successful), both length queries, the engine call on the two
acquired views, the two releases.  In wgGetConfig and wgVersion the
conversion that reads the buffer comes strictly before its free.  The three
handle-only methods make one engine call each and read or release nothing. -/
theorem no_read_after_release {W : Type} (env : Env W) (w : W) (c : jclass)
    (handle : Int) (ifname : jstring) (tun_fd : Int) (settings : jstring) :
    (noReadAfterRelease
        (Java_com_wireguard_android_backend_GoBackend_wgTurnOn env w c ifname tun_fd
          settings).trace = true
      ∧ allBefore (fun e => e.isGetChars || e.isGetLength) Event.isTurnOn
          (Java_com_wireguard_android_backend_GoBackend_wgTurnOn env w c ifname tun_fd
            settings).trace = true
      ∧ allBefore Event.isTurnOn Event.isReleaseChars
          (Java_com_wireguard_android_backend_GoBackend_wgTurnOn env w c ifname tun_fd
            settings).trace = true
      ∧ ((∃ e ∈ (Java_com_wireguard_android_backend_GoBackend_wgTurnOn env w c ifname tun_fd
            settings).trace, e.isTurnOn = true) →
          ∃ (p1 p2 : char_ptr) (n1 n2 r : Int), p1 ≠ none ∧ p2 ≠ none
            ∧ (Java_com_wireguard_android_backend_GoBackend_wgTurnOn env w c ifname tun_fd
                settings).trace
              = [Event.GetStringUTFChars ifname p1, Event.GetStringUTFChars settings p2,
                 Event.GetStringUTFLength ifname n1, Event.GetStringUTFLength settings n2,
                 Event.wgTurnOn ⟨p1, n1⟩ tun_fd ⟨p2, n2⟩ r,
                 Event.ReleaseStringUTFChars ifname p1,
                 Event.ReleaseStringUTFChars settings p2]))
    ∧ (noReadAfterRelease
        (Java_com_wireguard_android_backend_GoBackend_wgGetConfig env w c handle).trace = true
      ∧ allBefore Event.isNewStringUTF Event.isFree
          (Java_com_wireguard_android_backend_GoBackend_wgGetConfig env w c handle).trace = true)
    ∧ (noReadAfterRelease
        (Java_com_wireguard_android_backend_GoBackend_wgVersion env w c).trace = true
      ∧ allBefore Event.isNewStringUTF Event.isFree
          (Java_com_wireguard_android_backend_GoBackend_wgVersion env w c).trace = true)
    ∧ (noReadAfterRelease
        (Java_com_wireguard_android_backend_GoBackend_wgTurnOff env w c handle).trace = true
      ∧ noReadAfterRelease
        (Java_com_wireguard_android_backend_GoBackend_wgGetSocketV4 env w c handle).trace = true
      ∧ noReadAfterRelease
        (Java_com_wireguard_android_backend_GoBackend_wgGetSocketV6 env w c handle).trace
          = true) := by
  refine ⟨?_, ?_, ?_, ⟨rfl, rfl, rfl⟩⟩
  · by_cases hn : ifname = none ∨ settings = none
    · rw [wgTurnOn_path_null env w c ifname tun_fd settings hn]
      simp [noReadAfterRelease, allBefore]
    · have hi : ifname ≠ none := fun h => hn (Or.inl h)
      have hs : settings ≠ none := fun h => hn (Or.inr h)
      rcases h1 : env.GetStringUTFChars w ifname with ⟨p1, w1⟩
      by_cases hp1 : p1 = none
      · subst hp1
        rw [wgTurnOn_path_first_fails env w c ifname tun_fd settings w1 hi hs h1]
        simp [noReadAfterRelease, allBefore, Event.isTurnOn, Event.isGetChars,
          Event.isGetLength, Event.isReleaseChars, Event.reads, Event.releases]
      · rcases h2 : env.GetStringUTFChars w1 settings with ⟨p2, w2⟩
        by_cases hp2 : p2 = none
        · subst hp2
          rw [wgTurnOn_path_second_fails env w c ifname tun_fd settings p1 w1 w2 hi hs h1 hp1
            h2]
          simp [noReadAfterRelease, allBefore, Event.isTurnOn, Event.isGetChars,
            Event.isGetLength, Event.isReleaseChars, Event.reads, Event.releases]
        · rw [wgTurnOn_path_engine env w c ifname tun_fd settings p1 p2 w1 w2 hi hs h1 hp1 h2
            hp2]
          refine ⟨?_, ?_, ?_, fun _ => ⟨p1, p2, _, _, _, hp1, hp2, rfl⟩⟩ <;>
          simp [noReadAfterRelease, allBefore, Event.isTurnOn, Event.isGetChars,
            Event.isGetLength, Event.isReleaseChars, Event.reads, Event.releases]
  · rcases h1 : env.wgGetConfig w handle with ⟨config, w1⟩
    by_cases hb : config = none
    · subst hb
      rw [wgGetConfig_path_null env w c handle w1 h1]
      simp [noReadAfterRelease, allBefore, Event.isNewStringUTF, Event.isFree, Event.reads,
        Event.releases]
    · rw [wgGetConfig_path_buffer env w c handle config w1 (env.NewStringUTF w1 config).2
        (env.NewStringUTF w1 config).1 h1 hb rfl]
      simp [noReadAfterRelease, allBefore, Event.isNewStringUTF, Event.isFree, Event.reads,
        Event.releases]
  · rcases h1 : env.wgVersion w with ⟨version, w1⟩
    by_cases hb : version = none
    · subst hb
      rw [wgVersion_path_null env w c w1 h1]
      simp [noReadAfterRelease, allBefore, Event.isNewStringUTF, Event.isFree, Event.reads,
        Event.releases]
    · rw [wgVersion_path_buffer env w c version w1 (env.NewStringUTF w1 version).2
        (env.NewStringUTF w1 version).1 h1 hb rfl]
      simp [noReadAfterRelease, allBefore, Event.isNewStringUTF, Event.isFree, Event.reads,
        Event.releases]

theorem no_read_after_release_witness :
    ∃ (p1 p2 : char_ptr) (n1 n2 r : Int), p1 ≠ none ∧ p2 ≠ none
      ∧ (Java_com_wireguard_android_backend_GoBackend_wgTurnOn simEnv
          ⟨false, 2, 3, none⟩ none (some 1) 5 (some 2)).trace
        = [Event.GetStringUTFChars (some 1) p1, Event.GetStringUTFChars (some 2) p2,
           Event.GetStringUTFLength (some 1) n1, Event.GetStringUTFLength (some 2) n2,
           Event.wgTurnOn ⟨p1, n1⟩ 5 ⟨p2, n2⟩ r,
           Event.ReleaseStringUTFChars (some 1) p1,
           Event.ReleaseStringUTFChars (some 2) p2] :=
  (no_read_after_release simEnv ⟨false, 2, 3, none⟩ none 3 (some 1) 5 (some 2)).1.2.2.2
    ⟨Event.wgTurnOn ⟨some 1001, 3⟩ 5 ⟨some 1002, 16⟩ 3, by decide, rfl⟩

end WgJni
